import Mathlib

/-!
Verification of the local multi-service orchestrator of this repository
(`run.py` and `run_production_fixed.py`): the pre-flight port reap sweep,
the retrying service launcher, the HTTP readiness waiter, the launch loop
with its aggregate status report, and the signal-triggered teardown.

Modelling conventions, used uniformly below:
* OS effects (lsof lookups, os.kill / os.killpg, subprocess.Popen,
  requests.get) are oracles passed in as functions;
* a Python exception carrying message `m` is `Except.error m`; a
  `try`/`except` block is a `match` on that result;
* `sys.exit(c)` is recorded as the exit code `c`;
* wall-clock time is threaded explicitly (the readiness waiter counts
  milliseconds, the launcher counts seconds of `time.sleep`).
-/

/-- OS signals that appear in the two scripts. -/
inductive Sig
  | SIGINT
  | SIGTERM
  | SIGKILL
  deriving DecidableEq, Repr

/-- `true` exactly when an `Except` result is `ok` (a Python call that did
not raise). -/
def exOk {ε α : Type} : Except ε α → Bool
  | Except.ok _ => true
  | Except.error _ => false

namespace Run

/-- One entry of the `services` list of run.py (lines 143-174): name,
shell command, working directory and declared port. -/
structure Service where
  name : String
  command : String
  cwd : String
  port : Nat
  deriving DecidableEq, Repr

/-- The `services` registry of run.py, verbatim. -/
def services : List Service :=
  [⟨"journal_service", "PYTHONPATH=. python3 journal/run_journal.py", ".", 5000⟩,
   ⟨"forex_data_service", "python3 forex_data_service/server.py", ".", 5010⟩,
   ⟨"frontend", "npm run dev", ".", 5175⟩,
   ⟨"customer_service", "node customer-service/server.js", ".", 5005⟩,
   ⟨"trade_mentor_service", "node trade_mentor_service/server.js", ".", 5008⟩]

/-- The port list of the pre-flight sweep, run.py line 131:
`for port in [5005, 5007, 5000, 5175]: kill_process_on_port(port)`. -/
def preflightPorts : List Nat := [5005, 5007, 5000, 5175]

/-- Signals for which run.py registers `signal_handler` at module level:
line 38 is `signal.signal(signal.SIGINT, signal_handler)` and there is no
other registration. -/
def registeredSignals : List Sig := [Sig.SIGINT]

/-- run.py `signal_handler` (lines 31-36): for each tracked process send
SIGTERM to its process group via `os.killpg(os.getpgid(p.pid), SIGTERM)`;
no exception is caught inside the loop, so a failing lookup/kill
propagates out of the handler; after the loop the handler calls
`sys.exit(0)`. The `kill` oracle models `getpgid` + `killpg` for one pid.
On success, returns the pids whose groups were signalled and exit code 0. -/
def signal_handler (kill : Nat → Except String Unit) : List Nat → Except String (List Nat × Nat)
  | [] => Except.ok ([], 0)
  | p :: rest =>
    match kill p with
    | Except.ok _ =>
      match signal_handler kill rest with
      | Except.ok r => Except.ok (p :: r.1, r.2)
      | Except.error e => Except.error e
    | Except.error e => Except.error e

end Run

namespace RunProductionFixed

/-- Signals for which run_production_fixed.py registers its handler: line
26 is `signal.signal(signal.SIGINT, signal_handler)`, and no other. -/
def registeredSignals : List Sig := [Sig.SIGINT]

/-- run_production_fixed.py `signal_handler` (lines 16-24): the same loop,
but each group kill is wrapped in
`try: os.killpg(...) except (ProcessLookupError, OSError): pass`,
then `sys.exit(0)`. Records, per pid, whether its group kill succeeded;
always reaches exit code 0. -/
def signal_handler (kill : Nat → Except String Unit) (processes : List Nat) :
    List (Nat × Bool) × Nat :=
  (processes.map (fun p => (p, exOk (kill p))), 0)

end RunProductionFixed

/-- C3 (counterexample): the claim says the teardown handler is installed
for both interrupt and terminate; in fact neither script registers the
terminate signal — only SIGINT is registered. -/
theorem C3_counterexample :
    Run.registeredSignals.contains Sig.SIGTERM = false ∧
    RunProductionFixed.registeredSignals.contains Sig.SIGTERM = false := by
  decide

/-- C3 (amended): the teardown handler is installed only for the
interrupt signal (SIGINT), in both scripts; receiving it triggers a
terminate signal to every registered child's process group, in
registration order, followed by supervisor exit with code 0 (when every
group kill succeeds). -/
theorem C3_amended_signals :
    Run.registeredSignals = [Sig.SIGINT] ∧
    RunProductionFixed.registeredSignals = [Sig.SIGINT] ∧
    ∀ kill procs, (∀ p ∈ procs, kill p = Except.ok ()) →
      Run.signal_handler kill procs = Except.ok (procs, 0) := by
  refine ⟨rfl, rfl, ?_⟩
  intro kill procs h
  induction procs with
  | nil => rfl
  | cons p rest ih =>
    have hp : kill p = Except.ok () := h p (List.mem_cons_self p rest)
    have hr : Run.signal_handler kill rest = Except.ok (rest, 0) :=
      ih (fun q hq => h q (List.mem_cons_of_mem p hq))
    simp [Run.signal_handler, hp, hr]

/-- C3 amended, witness: a concrete two-child registry where all group
kills succeed. -/
theorem C3_amended_signals_witness :
    Run.signal_handler (fun _ => Except.ok ()) [100, 200] = Except.ok ([100, 200], 0) :=
  C3_amended_signals.2.2 (fun _ => Except.ok ()) [100, 200] (fun _ _ => rfl)

/-- C4 (code evaluation at the failing input): with one registered child
whose process group no longer exists, run.py's handler propagates the
ProcessLookupError instead of swallowing it, so it never reaches
`sys.exit(0)`; run_production_fixed.py's handler — the repository's own
fixed variant of the same loop — swallows the error per handle and exits
with code 0, and indeed exits 0 on every registry whatever the kills do. -/
theorem C4_code_evaluation :
    Run.signal_handler (fun _ => Except.error "ProcessLookupError") [1234] =
      Except.error "ProcessLookupError" ∧
    RunProductionFixed.signal_handler (fun _ => Except.error "ProcessLookupError") [1234] =
      ([(1234, false)], 0) ∧
    ∀ kill procs, (RunProductionFixed.signal_handler kill procs).2 = 0 :=
  ⟨rfl, rfl, fun _ _ => rfl⟩

namespace Run

/-- Outcome of one `requests.get('http://localhost:{port}/health', timeout=1)`
call in wait_for_service (run.py lines 77-91): either an HTTP response
with a status code and a body, or a network error (connection refused,
request timeout, ...). `dur` is the wall-clock milliseconds the call took;
the 1-second request timeout bounds it by 1000. -/
inductive PollOutcome
  | resp (status : Nat) (body : String) (dur : Nat)
  | err (dur : Nat)
  deriving DecidableEq, Repr

/-- Milliseconds one poll took. -/
def pollDur : PollOutcome → Nat
  | PollOutcome.resp _ _ d => d
  | PollOutcome.err d => d

/-- Whether a poll outcome is a response with status code exactly 200 —
the only condition run.py line 84 treats as ready. -/
def pollIs200 : PollOutcome → Bool
  | PollOutcome.resp s _ _ => decide (s = 200)
  | PollOutcome.err _ => false

/-- The same poll oracle with every response body blanked; used to state
that the waiter never inspects the body. -/
def eraseBody (poll : Nat → PollOutcome) : Nat → PollOutcome := fun k =>
  match poll k with
  | PollOutcome.resp s _ d => PollOutcome.resp s "" d
  | PollOutcome.err d => PollOutcome.err d

/-- run.py `wait_for_service` (lines 77-91), time in milliseconds.
The loop `while time.time() - start_time < timeout` polls the health URL;
`if response.status_code == 200: return True`; any exception is swallowed
by the bare `except: pass`; then `time.sleep(1)` (= 1000 ms) and repeat;
when the elapsed time reaches `timeout` it returns False. `poll k` is the
k-th request's outcome; `t` is elapsed milliseconds; `fuel` bounds the
iteration count (each iteration advances time by at least 1000 ms, so any
`fuel` with `timeout ≤ 1000 * fuel` is enough). Returns the result and
the elapsed time at return. -/
def wait_for_service (poll : Nat → PollOutcome) (timeout : Nat) :
    Nat → Nat → Nat → Bool × Nat
  | 0, _, t => (false, t)
  | fuel + 1, k, t =>
    if t < timeout then
      match poll k with
      | PollOutcome.resp s _ d =>
        if s = 200 then (true, t + d)
        else wait_for_service poll timeout fuel (k + 1) (t + d + 1000)
      | PollOutcome.err d => wait_for_service poll timeout fuel (k + 1) (t + d + 1000)
    else (false, t)

/-- A readiness poll that is not a 200 response advances the loop by the
request's duration plus the 1-second sleep. -/
theorem wait_step_not200 (poll : Nat → PollOutcome) (timeout fuel k t : Nat)
    (ht : t < timeout) (h200 : pollIs200 (poll k) = false) :
    wait_for_service poll timeout (fuel + 1) k t =
      wait_for_service poll timeout fuel (k + 1) (t + pollDur (poll k) + 1000) := by
  cases hpk : poll k with
  | resp s b d =>
    have hs : ¬ s = 200 := by simpa [pollIs200, hpk] using h200
    simp [wait_for_service, hpk, ht, hs, pollDur]
  | err d => simp [wait_for_service, hpk, ht, pollDur]

/-- When no poll ever returns status 200 and each poll stays within the
1-second request timeout, the waiter returns false, at a time in
`[timeout, timeout + 2000)` when it started before the deadline. -/
theorem wait_no200_false (poll : Nat → PollOutcome) (timeout : Nat)
    (hdur : ∀ k, pollDur (poll k) ≤ 1000)
    (hfail : ∀ k, pollIs200 (poll k) = false) :
    ∀ fuel k t, timeout ≤ t + 1000 * fuel →
      (wait_for_service poll timeout fuel k t).1 = false ∧
      (t < timeout → timeout ≤ (wait_for_service poll timeout fuel k t).2 ∧
        (wait_for_service poll timeout fuel k t).2 < timeout + 2000) ∧
      (timeout ≤ t → (wait_for_service poll timeout fuel k t).2 = t) := by
  intro fuel
  induction fuel with
  | zero =>
    intro k t hle
    refine ⟨rfl, ?_, fun _ => rfl⟩
    intro ht
    omega
  | succ fuel ih =>
    intro k t hle
    by_cases ht : t < timeout
    · rw [wait_step_not200 poll timeout fuel k t ht (hfail k)]
      have hd : pollDur (poll k) ≤ 1000 := hdur k
      obtain ⟨h1, h2, h3⟩ :=
        ih (k + 1) (t + pollDur (poll k) + 1000) (by omega)
      refine ⟨h1, fun _ => ?_, fun hge => ?_⟩
      · by_cases ht' : t + pollDur (poll k) + 1000 < timeout
        · exact h2 ht'
        · have := h3 (by omega)
          omega
      · omega
    · have hw : wait_for_service poll timeout (fuel + 1) k t = (false, t) := by
        simp [wait_for_service, ht]
      rw [hw]
      exact ⟨rfl, fun h' => absurd h' ht, fun _ => rfl⟩

end Run

/-- C5 (counterexample): an endpoint that answers every poll with HTTP 204
(a success status in the 2xx class) never makes the waiter return true —
run.py line 84 compares the status code to 200 exactly, so the waiter
times out and returns false. -/
theorem C5_counterexample :
    Run.wait_for_service (fun _ => Run.PollOutcome.resp 204 "No Content" 0) 3000 4 0 0 =
      (false, 3000) := by
  decide

/-- C5 (amended): observing a response with status code exactly 200 makes
the waiter return true immediately (no sleep after the successful poll);
any other status — 2xx included — is treated as not ready; and the result
depends only on status codes and timing, never on response bodies. -/
theorem C5_amended_status_only :
    (∀ (poll : Nat → Run.PollOutcome) (timeout fuel d : Nat) (b : String),
       0 < timeout → poll 0 = Run.PollOutcome.resp 200 b d →
       Run.wait_for_service poll timeout (fuel + 1) 0 0 = (true, d)) ∧
    (∀ (poll : Nat → Run.PollOutcome) (timeout fuel k t : Nat),
       Run.wait_for_service (Run.eraseBody poll) timeout fuel k t =
       Run.wait_for_service poll timeout fuel k t) := by
  constructor
  · intro poll timeout fuel d b hpos hpoll
    simp [Run.wait_for_service, hpoll, hpos]
  · intro poll timeout fuel
    induction fuel with
    | zero => intro k t; rfl
    | succ fuel ih =>
      intro k t
      by_cases ht : t < timeout
      · cases hpk : poll k with
        | resp s b d =>
          have he : Run.eraseBody poll k = Run.PollOutcome.resp s "" d := by
            simp [Run.eraseBody, hpk]
          by_cases hs : s = 200
          · simp [Run.wait_for_service, hpk, he, ht, hs]
          · simp [Run.wait_for_service, hpk, he, ht, hs, ih]
        | err d =>
          have he : Run.eraseBody poll k = Run.PollOutcome.err d := by
            simp [Run.eraseBody, hpk]
          simp [Run.wait_for_service, hpk, he, ht, ih]
      · simp [Run.wait_for_service, ht]

/-- C5 amended, witness: a first poll answering 200 returns true at once. -/
theorem C5_amended_status_only_witness :
    Run.wait_for_service (fun _ => Run.PollOutcome.resp 200 "OK" 5) 30000 31 0 0 = (true, 5) :=
  C5_amended_status_only.1 (fun _ => Run.PollOutcome.resp 200 "OK" 5) 30000 30 5 "OK"
    (by omega) rfl

/-- C6 (counterexample to the strict bound): with timeout 30000 ms and
every poll a network error that takes 950 ms (within the 1-second request
timeout), the waiter returns false only at 31200 ms — not less than
timeout plus one 1000 ms poll interval. The error part of the claim holds
(every error is swallowed, the waiter returns normally), but the finish
time can reach timeout + poll interval + request timeout. -/
theorem C6_counterexample :
    Run.wait_for_service (fun _ => Run.PollOutcome.err 950) 30000 31 0 0 = (false, 31200) ∧
    decide (31200 < 30000 + 1000) = false := by
  constructor
  · decide
  · rfl

/-- C6 (amended): against an endpoint that never answers 200, every
network error during polling is swallowed and treated as not yet ready,
and (provided each request finishes within its 1-second request timeout)
the waiter returns false at a time ≥ timeout and < timeout + poll
interval + request timeout (= timeout + 2000 ms). -/
theorem C6_amended_timeout (poll : Nat → Run.PollOutcome) (timeout fuel : Nat)
    (hdur : ∀ k, Run.pollDur (poll k) ≤ 1000)
    (hfail : ∀ k, Run.pollIs200 (poll k) = false)
    (hfuel : timeout ≤ 1000 * fuel) (hpos : 0 < timeout) :
    (Run.wait_for_service poll timeout fuel 0 0).1 = false ∧
    timeout ≤ (Run.wait_for_service poll timeout fuel 0 0).2 ∧
    (Run.wait_for_service poll timeout fuel 0 0).2 < timeout + 2000 := by
  obtain ⟨h1, h2, _⟩ := Run.wait_no200_false poll timeout hdur hfail fuel 0 0 (by omega)
  exact ⟨h1, (h2 hpos).1, (h2 hpos).2⟩

/-- C6 amended, witness: all polls fail instantly, timeout 3000 ms. -/
theorem C6_amended_timeout_witness :
    (Run.wait_for_service (fun _ => Run.PollOutcome.err 0) 3000 3 0 0).1 = false ∧
    3000 ≤ (Run.wait_for_service (fun _ => Run.PollOutcome.err 0) 3000 3 0 0).2 ∧
    (Run.wait_for_service (fun _ => Run.PollOutcome.err 0) 3000 3 0 0).2 < 3000 + 2000 :=
  C6_amended_timeout (fun _ => Run.PollOutcome.err 0) 3000 3
    (fun _ => by simp [Run.pollDur]) (fun _ => rfl) (by omega) (by omega)

namespace Run

/-- Outcome of one attempt of `start_service_with_retry` (run.py lines
93-128): the `subprocess.Popen` call raises (caught by the
`except Exception` inside the loop), or the spawned process exits before
the 2-second settle sleep (`pro.poll() is not None`), or it survives the
settle window with pid `pid`. -/
inductive SpawnOutcome
  | raises
  | diesEarly
  | survives (pid : Nat)
  deriving DecidableEq, Repr

/-- Events of one `start_service_with_retry` run: a spawn attempt, the
2-second settle sleep (`time.sleep(2)`, line 109), or the 3-second
backoff sleep (`time.sleep(3)`, line 125). -/
inductive LaunchEv
  | spawn (attempt : Nat)
  | sleepSettle
  | sleepBackoff
  deriving DecidableEq, Repr

/-- Seconds an event takes. -/
def evSeconds : LaunchEv → Nat
  | LaunchEv.spawn _ => 0
  | LaunchEv.sleepSettle => 2
  | LaunchEv.sleepBackoff => 3

/-- Total elapsed seconds of a launch trace. -/
def elapsedOf (tr : List LaunchEv) : Nat := (tr.map evSeconds).sum

/-- Whether an event is a spawn attempt. -/
def isSpawnEv : LaunchEv → Bool
  | LaunchEv.spawn _ => true
  | _ => false

/-- Whether an event is the backoff sleep. -/
def isBackoffEv : LaunchEv → Bool
  | LaunchEv.sleepBackoff => true
  | _ => false

/-- Number of spawn attempts in a trace. -/
def spawnCount (tr : List LaunchEv) : Nat := tr.countP isSpawnEv

/-- Number of backoff sleeps in a trace. -/
def backoffCount (tr : List LaunchEv) : Nat := tr.countP isBackoffEv

/-- The `for attempt in range(max_retries)` loop of
`start_service_with_retry`, indexed by the number of remaining
iterations (the current attempt is `max_retries - remaining`, matching
range order). Per attempt: spawn; if Popen raised, no settle sleep; else
settle-sleep 2 s and check `pro.poll()`; a surviving process is returned
at once; otherwise, if this is not the last attempt
(`attempt < max_retries - 1`, i.e. `0 < remaining - 1` here, line 123),
sleep the 3-second backoff and retry. After the loop, return None. -/
def retryLoop (spawnO : Nat → SpawnOutcome) (max_retries : Nat) :
    Nat → Option Nat × List LaunchEv
  | 0 => (none, [])
  | remaining + 1 =>
    let attempt := max_retries - (remaining + 1)
    match spawnO attempt with
    | SpawnOutcome.survives pid => (some pid, [LaunchEv.spawn attempt, LaunchEv.sleepSettle])
    | SpawnOutcome.diesEarly =>
      let r := retryLoop spawnO max_retries remaining
      (r.1, LaunchEv.spawn attempt :: LaunchEv.sleepSettle ::
        ((if 0 < remaining then [LaunchEv.sleepBackoff] else []) ++ r.2))
    | SpawnOutcome.raises =>
      let r := retryLoop spawnO max_retries remaining
      (r.1, LaunchEv.spawn attempt ::
        ((if 0 < remaining then [LaunchEv.sleepBackoff] else []) ++ r.2))

/-- run.py `start_service_with_retry` (lines 93-128) for one descriptor:
returns the surviving pid, or None after exhausting `max_retries`
attempts, together with the trace of attempts and sleeps. -/
def start_service_with_retry (spawnO : Nat → SpawnOutcome) (max_retries : Nat := 3) :
    Option Nat × List LaunchEv :=
  retryLoop spawnO max_retries max_retries

/-- Whether a spawn outcome is a surviving process. -/
def isSurvives : SpawnOutcome → Bool
  | SpawnOutcome.survives _ => true
  | _ => false

/-- When no attempt ever yields a surviving process, the loop consumes
every remaining attempt, sleeps the backoff after each attempt but the
last, and returns None. -/
theorem retryLoop_no_survive (spawnO : Nat → SpawnOutcome) (max_retries : Nat)
    (h : ∀ k, isSurvives (spawnO k) = false) :
    ∀ remaining, 0 < remaining →
      (retryLoop spawnO max_retries remaining).1 = none ∧
      spawnCount (retryLoop spawnO max_retries remaining).2 = remaining ∧
      backoffCount (retryLoop spawnO max_retries remaining).2 = remaining - 1 := by
  intro remaining
  induction remaining with
  | zero => intro h0; omega
  | succ rem ih =>
    intro _
    cases hso : spawnO (max_retries - (rem + 1)) with
    | survives pid =>
      have hc := h (max_retries - (rem + 1))
      rw [hso] at hc
      simp [isSurvives] at hc
    | diesEarly =>
      by_cases hr : 0 < rem
      · obtain ⟨h1, h2, h3⟩ := ih hr
        refine ⟨by simp [retryLoop, hso, h1], ?_, ?_⟩
        · simp only [retryLoop, hso, hr, if_pos]
          simp only [spawnCount] at h2 ⊢
          simp [List.countP_cons, List.countP_append, isSpawnEv, h2]
        · simp only [retryLoop, hso, hr, if_pos]
          simp only [backoffCount] at h3 ⊢
          simp [List.countP_cons, List.countP_append, isBackoffEv, h3]
          omega
      · have h0 : rem = 0 := by omega
        subst h0
        refine ⟨by simp [retryLoop, hso], ?_, ?_⟩
        · simp [retryLoop, hso, spawnCount, List.countP_cons, isSpawnEv]
        · simp [retryLoop, hso, backoffCount, List.countP_cons, isBackoffEv]
    | raises =>
      by_cases hr : 0 < rem
      · obtain ⟨h1, h2, h3⟩ := ih hr
        refine ⟨by simp [retryLoop, hso, h1], ?_, ?_⟩
        · simp only [retryLoop, hso, hr, if_pos]
          simp only [spawnCount] at h2 ⊢
          simp [List.countP_cons, List.countP_append, isSpawnEv, h2]
        · simp only [retryLoop, hso, hr, if_pos]
          simp only [backoffCount] at h3 ⊢
          simp [List.countP_cons, List.countP_append, isBackoffEv, h3]
          omega
      · have h0 : rem = 0 := by omega
        subst h0
        refine ⟨by simp [retryLoop, hso], ?_, ?_⟩
        · simp [retryLoop, hso, spawnCount, List.countP_cons, isSpawnEv]
        · simp [retryLoop, hso, backoffCount, List.countP_cons, isBackoffEv]

/-- When every attempt dies during the settle window, the loop takes
2 seconds of settle per attempt plus 3 seconds of backoff per non-final
attempt. -/
theorem retryLoop_dies_elapsed (spawnO : Nat → SpawnOutcome) (max_retries : Nat)
    (h : ∀ k, spawnO k = SpawnOutcome.diesEarly) :
    ∀ remaining, 0 < remaining →
      elapsedOf (retryLoop spawnO max_retries remaining).2 = 5 * remaining - 3 := by
  intro remaining
  induction remaining with
  | zero => intro h0; omega
  | succ rem ih =>
    intro _
    by_cases hr : 0 < rem
    · have h2 := ih hr
      simp only [retryLoop, h (max_retries - (rem + 1)), hr, if_pos]
      simp only [elapsedOf] at h2 ⊢
      simp [evSeconds, List.map_append, List.sum_append]
      omega
    · have h0 : rem = 0 := by omega
      subst h0
      simp [retryLoop, h (max_retries - 1), elapsedOf, evSeconds]

end Run

/-- C7 (confirmed): with maxAttempts = n+1 and a command whose process
always exits before the settle window, the launcher performs exactly n+1
spawn attempts, returns None, sleeps the 3-second backoff after each
attempt except the last (n backoffs), and the elapsed time equals
(n+1)·(settle+backoff) − backoff — hence is at least that bound. -/
theorem C7_retry_exhaustion (n : Nat) :
    (Run.start_service_with_retry (fun _ => Run.SpawnOutcome.diesEarly) (n + 1)).1 = none ∧
    Run.spawnCount
      (Run.start_service_with_retry (fun _ => Run.SpawnOutcome.diesEarly) (n + 1)).2 = n + 1 ∧
    Run.backoffCount
      (Run.start_service_with_retry (fun _ => Run.SpawnOutcome.diesEarly) (n + 1)).2 = n ∧
    Run.elapsedOf
      (Run.start_service_with_retry (fun _ => Run.SpawnOutcome.diesEarly) (n + 1)).2 =
      (n + 1) * (2 + 3) - 3 := by
  obtain ⟨h1, h2, h3⟩ :=
    Run.retryLoop_no_survive (fun _ => Run.SpawnOutcome.diesEarly) (n + 1)
      (fun _ => rfl) (n + 1) (by omega)
  have h4 :=
    Run.retryLoop_dies_elapsed (fun _ => Run.SpawnOutcome.diesEarly) (n + 1)
      (fun _ => rfl) (n + 1) (by omega)
  simp only [Run.start_service_with_retry]
  exact ⟨h1, h2, by omega, by omega⟩

/-- C10 (confirmed): when no attempt yields a surviving process — in
particular when Popen raises — the exception is caught inside the attempt
loop, each such attempt consumes one unit of the same retry budget with
the same backoff sleep between consecutive attempts, and after all
attempts the launcher returns None instead of propagating. -/
theorem C10_spawn_exception_retry (spawnO : Nat → Run.SpawnOutcome) (n : Nat)
    (h : ∀ k, Run.isSurvives (spawnO k) = false) :
    (Run.start_service_with_retry spawnO (n + 1)).1 = none ∧
    Run.spawnCount (Run.start_service_with_retry spawnO (n + 1)).2 = n + 1 ∧
    Run.backoffCount (Run.start_service_with_retry spawnO (n + 1)).2 = n := by
  obtain ⟨h1, h2, h3⟩ := Run.retryLoop_no_survive spawnO (n + 1) h (n + 1) (by omega)
  simp only [Run.start_service_with_retry]
  exact ⟨h1, h2, by omega⟩

/-- C10 witness: first attempt's Popen raises, the remaining two die
early; three attempts, two backoffs, final result None. -/
theorem C10_spawn_exception_retry_witness :
    (Run.start_service_with_retry
      (fun k => if k = 0 then Run.SpawnOutcome.raises else Run.SpawnOutcome.diesEarly) 3).1 =
      none ∧
    Run.spawnCount (Run.start_service_with_retry
      (fun k => if k = 0 then Run.SpawnOutcome.raises else Run.SpawnOutcome.diesEarly) 3).2 =
      3 ∧
    Run.backoffCount (Run.start_service_with_retry
      (fun k => if k = 0 then Run.SpawnOutcome.raises else Run.SpawnOutcome.diesEarly) 3).2 =
      2 := by
  exact C10_spawn_exception_retry
    (fun k => if k = 0 then Run.SpawnOutcome.raises else Run.SpawnOutcome.diesEarly) 2
    (by intro k; by_cases hk : k = 0 <;> simp [hk, Run.isSurvives])

namespace Run

/-- The `for pid in pids` loop of kill_process_on_port (run.py lines
70-73): skip empty strings (the result of splitting empty lsof output);
otherwise `os.kill(int(pid), SIGKILL)`, modelled by the `kill` oracle; an
exception stops the loop and propagates. Returns the pids killed before
any exception, and the exception if one occurred. -/
def reapLoop (kill : String → Except String Unit) : List String → List String × Option String
  | [] => ([], none)
  | pid :: rest =>
    if pid = "" then reapLoop kill rest
    else
      match kill pid with
      | Except.ok _ =>
        let r := reapLoop kill rest
        (pid :: r.1, r.2)
      | Except.error e => ([], some e)

/-- run.py `kill_process_on_port` (lines 65-75). `lsof` is the outcome of
`subprocess.run(['lsof','-ti',':{port}'])` plus `.stdout.strip().split('\n')`
(an exception there is `Except.error`; empty output yields `[""]`). The
whole body sits inside `try: ... except Exception as e: print(...)`, so
every error — lookup or kill — is caught and logged and the function
returns normally: an `Except.error` at top level would be an uncaught
exception, and no input produces one. Returns the killed pids and the
logged message `Error killing process on port {port}: {e}`, modelled as
the pair `(port, e)`, if any. -/
def kill_process_on_port (lsof : Except String (List String))
    (kill : String → Except String Unit) (port : Nat) :
    Except String (List String × Option (Nat × String)) :=
  match lsof with
  | Except.error e => Except.ok ([], some (port, e))
  | Except.ok pids =>
    let r := reapLoop kill pids
    Except.ok (r.1, r.2.map (fun e => (port, e)))

end Run

/-- C9 (confirmed): the port reaper never raises — for every lookup and
kill behaviour the call returns normally; when the lsof lookup raises,
the error is logged and the result is still normal; when zero processes
match (lsof output empty, i.e. pid list [""]), the reap is a no-op with
nothing logged; when the kill of a found pid fails (e.g. permission
denied), the error is logged and the reap still returns normally. -/
theorem C9_reaper_never_raises (lsof : Except String (List String))
    (kill : String → Except String Unit) (port : Nat) :
    exOk (Run.kill_process_on_port lsof kill port) = true ∧
    (∀ e, Run.kill_process_on_port (Except.error e) kill port =
      Except.ok ([], some (port, e))) ∧
    Run.kill_process_on_port (Except.ok [""]) kill port = Except.ok ([], none) ∧
    (∀ e, Run.kill_process_on_port (Except.ok ["123"]) (fun _ => Except.error e) port =
      Except.ok ([], some (port, e))) ∧
    (∀ e, Run.kill_process_on_port (Except.ok ["12", "34"])
      (fun p => if p = "12" then Except.ok () else Except.error e) port =
      Except.ok (["12"], some (port, e))) := by
  refine ⟨?_, fun e => rfl, rfl, fun e => rfl, fun e => rfl⟩
  cases lsof <;> rfl

namespace Run

/-- Events of run.py's top-level script (lines 130-194): a
kill_process_on_port call, a pre-flight collaborator call, a
start_service_with_retry call for a named service, a wait_for_service
call with its result, the failure log of line 186, and one line of the
final status report (lines 190-194). -/
inductive MainEv
  | reap (port : Nat)
  | preflightStep (name : String)
  | launch (name : String)
  | waitReady (name : String) (ready : Bool)
  | launchFailedLog (name : String)
  | statusLine (name : String) (running : Bool)
  deriving DecidableEq, Repr

/-- Services run.py waits on after launch: line 183 is
`if service['name'] in ['journal_service']`. -/
def criticalNames : List String := ["journal_service"]

/-- The launch loop of run.py (lines 177-186), generic in the descriptor
list. `launchO s` is the result of start_service_with_retry for `s`
(`some pid` for a surviving process); successful handles are appended to
`processes` in loop order; on success of a critical service the loop
blocks on wait_for_service; on failure it logs and continues. Returns the
event trace and the final `processes` list. -/
def launchEvents (launchO : Service → Option Nat) (waitO : Service → Bool) :
    List Service → List MainEv × List Nat
  | [] => ([], [])
  | s :: rest =>
    let r := launchEvents launchO waitO rest
    match launchO s with
    | some pid =>
      (MainEv.launch s.name ::
        ((if criticalNames.contains s.name then [MainEv.waitReady s.name (waitO s)] else [])
          ++ r.1),
       pid :: r.2)
    | none =>
      (MainEv.launch s.name :: MainEv.launchFailedLog s.name :: r.1, r.2)

/-- The status condition of run.py line 191:
`i < len(processes) and processes[i].poll() is None`; `alive p` models
`p.poll() is None`. -/
def serviceRunning (procs : List Nat) (alive : Nat → Bool) (i : Nat) : Bool :=
  if h : i < procs.length then alive (procs.get ⟨i, h⟩) else false

/-- The status report loop of run.py (lines 190-194):
`for i, service in enumerate(services)`, printing per descriptor the
condition above. -/
def statusLines (svcs : List Service) (procs : List Nat) (alive : Nat → Bool) : List MainEv :=
  svcs.enum.map (fun q => MainEv.statusLine q.2.name (serviceRunning procs alive q.1))

/-- The three pre-flight collaborators run.py calls between the reap
sweep and the launch loop (lines 134-141), in order; each calls
`sys.exit(1)` on failure. -/
def preflightNames : List String :=
  ["install_python_dependencies", "build_frontend", "setup_database"]

/-- run.py top level after the reap sweep (lines 134-194): the three
pre-flight steps in order, each aborting the run with exit code 1 on
failure (`pf` gives each step's success); then the launch loop over
`services` and the status report. Returns the event trace and the abort
exit code (`none` when the run reaches the status report and idles). -/
def afterReap (pf : String → Bool) (launchO : Service → Option Nat)
    (waitO : Service → Bool) (alive : Nat → Bool) : List MainEv × Option Nat :=
  if pf "install_python_dependencies" then
    if pf "build_frontend" then
      if pf "setup_database" then
        let le := launchEvents launchO waitO services
        (preflightNames.map MainEv.preflightStep ++ le.1 ++ statusLines services le.2 alive,
         none)
      else
        ([MainEv.preflightStep "install_python_dependencies",
          MainEv.preflightStep "build_frontend",
          MainEv.preflightStep "setup_database"], some 1)
    else
      ([MainEv.preflightStep "install_python_dependencies",
        MainEv.preflightStep "build_frontend"], some 1)
  else ([MainEv.preflightStep "install_python_dependencies"], some 1)

/-- run.py top level (lines 130-194): first the reap sweep
`for port in [5005, 5007, 5000, 5175]: kill_process_on_port(port)`, then
everything after it. -/
def mainTrace (pf : String → Bool) (launchO : Service → Option Nat)
    (waitO : Service → Bool) (alive : Nat → Bool) : List MainEv × Option Nat :=
  ((preflightPorts.map MainEv.reap) ++ (afterReap pf launchO waitO alive).1,
   (afterReap pf launchO waitO alive).2)

/-- Whether an event is a kill_process_on_port call. -/
def isReapEv : MainEv → Bool
  | MainEv.reap _ => true
  | _ => false

/-- Whether an event is a start_service_with_retry call. -/
def isLaunchEv : MainEv → Bool
  | MainEv.launch _ => true
  | _ => false

/-- The launch loop performs no port reaping. -/
theorem launchEvents_no_reap (launchO : Service → Option Nat) (waitO : Service → Bool) :
    ∀ svcs, ((launchEvents launchO waitO svcs).1.filter isReapEv) = [] := by
  intro svcs
  induction svcs with
  | nil => rfl
  | cons s rest ih =>
    cases hs : launchO s with
    | some pid =>
      by_cases hc : criticalNames.contains s.name
      · simp [launchEvents, hs, hc, List.filter_append, ih, isReapEv]
      · simp [launchEvents, hs, hc, List.filter_append, ih, isReapEv]
    | none => simp [launchEvents, hs, ih, isReapEv]

/-- The status report performs no port reaping. -/
theorem statusLines_no_reap (svcs : List Service) (procs : List Nat) (alive : Nat → Bool) :
    (statusLines svcs procs alive).filter isReapEv = [] := by
  rw [List.filter_eq_nil_iff]
  intro a ha
  rw [statusLines, List.mem_map] at ha
  obtain ⟨q, -, rfl⟩ := ha
  simp [isReapEv]

/-- Everything after the reap sweep performs no port reaping. -/
theorem afterReap_no_reap (pf : String → Bool) (launchO : Service → Option Nat)
    (waitO : Service → Bool) (alive : Nat → Bool) :
    ((afterReap pf launchO waitO alive).1.filter isReapEv) = [] := by
  by_cases h1 : pf "install_python_dependencies" <;>
    by_cases h2 : pf "build_frontend" <;>
      by_cases h3 : pf "setup_database" <;>
        simp [afterReap, h1, h2, h3, List.filter_append, launchEvents_no_reap,
          statusLines_no_reap, isReapEv, preflightNames]

end Run

/-- C1 (counterexample): the declared port 5010 of forex_data_service —
and likewise 5008 of trade_mentor_service — does not appear in the
pre-flight reap sweep list [5005, 5007, 5000, 5175], so the claim that
every descriptor's declared port is reaped before launch is false. -/
theorem C1_counterexample :
    (Run.services.map (fun s => s.port)).contains 5010 = true ∧
    Run.preflightPorts.contains 5010 = false := by
  decide

/-- C1 (amended): before any service launch begins, the supervisor
invokes the port reaper exactly on the ports of the fixed list
[5005, 5007, 5000, 5175] — these are the first four events of the run and
the only reap events anywhere in it. That list covers the declared ports
of journal_service (5000), frontend (5175) and customer_service (5005),
but not the declared ports of forex_data_service (5010) and
trade_mentor_service (5008). -/
theorem C1_amended_reap_sweep (pf : String → Bool) (launchO : Run.Service → Option Nat)
    (waitO : Run.Service → Bool) (alive : Nat → Bool) :
    (Run.mainTrace pf launchO waitO alive).1.take 4 =
      Run.preflightPorts.map Run.MainEv.reap ∧
    (Run.mainTrace pf launchO waitO alive).1.filter Run.isReapEv =
      Run.preflightPorts.map Run.MainEv.reap ∧
    (Run.services.filter (fun s => Run.preflightPorts.contains s.port)).map
      Run.Service.name = ["journal_service", "frontend", "customer_service"] ∧
    (Run.services.filter (fun s => !(Run.preflightPorts.contains s.port))).map
      Run.Service.name = ["forex_data_service", "trade_mentor_service"] := by
  refine ⟨rfl, ?_, by decide, by decide⟩
  simp only [Run.mainTrace, List.filter_append, Run.afterReap_no_reap, List.append_nil]
  decide

namespace Run

/-- Descriptor A of the spec's end-to-end scenario (three descriptors,
only B's command always fails immediately). -/
def svcA : Service := ⟨"A", "cmdA", ".", 9001⟩

/-- Descriptor B — the one whose launch always fails. -/
def svcB : Service := ⟨"B", "cmdB", ".", 9002⟩

/-- Descriptor C. -/
def svcC : Service := ⟨"C", "cmdC", ".", 9003⟩

/-- Launch outcomes of the scenario: A and C survive (pids 11 and 13), B
exhausts its retries and start_service_with_retry returns None. -/
def launchABC : Service → Option Nat := fun s =>
  if s.name = "B" then none else if s.name = "A" then some 11 else some 13

/-- In the launch loop, every descriptor is attempted (a launch event for
it appears in the trace), and a descriptor whose launch returns None gets
the failure log and the loop continues. -/
theorem launchEvents_mem (launchO : Service → Option Nat) (waitO : Service → Bool) :
    ∀ svcs s, s ∈ svcs →
      MainEv.launch s.name ∈ (launchEvents launchO waitO svcs).1 ∧
      (launchO s = none →
        MainEv.launchFailedLog s.name ∈ (launchEvents launchO waitO svcs).1) := by
  intro svcs
  induction svcs with
  | nil => intro s hs; cases hs
  | cons a rest ih =>
    intro s hs
    cases hs with
    | head =>
      cases ha : launchO a with
      | some pid =>
        refine ⟨by simp [launchEvents, ha], fun hn => ?_⟩
        simp [ha] at hn
      | none => exact ⟨by simp [launchEvents, ha], fun _ => by simp [launchEvents, ha]⟩
    | tail _ hmem =>
      obtain ⟨m1, m2⟩ := ih s hmem
      cases ha : launchO a with
      | some pid =>
        exact ⟨by simp [launchEvents, ha, m1], fun hn => by simp [launchEvents, ha, m2 hn]⟩
      | none =>
        exact ⟨by simp [launchEvents, ha, m1], fun hn => by simp [launchEvents, ha, m2 hn]⟩

end Run

/-- C2 (code evaluation at the failing input): three descriptors A, B, C
where only B's launch fails and the handles of A and C are both alive at
report time. The launch loop processes all three (the run does not
abort) and `processes` ends as [11, 13]; but the status report of run.py
lines 190-194 pairs `services[i]` with `processes[i]`, so it reports
A running, B running (it reads C's handle at index 1), and C not running
— not the per-descriptor statuses A running, B not running, C running
that the claim states. -/
theorem C2_code_evaluation :
    (Run.launchEvents Run.launchABC (fun _ => true) [Run.svcA, Run.svcB, Run.svcC]).1 =
      [Run.MainEv.launch "A", Run.MainEv.launch "B", Run.MainEv.launchFailedLog "B",
       Run.MainEv.launch "C"] ∧
    (Run.launchEvents Run.launchABC (fun _ => true) [Run.svcA, Run.svcB, Run.svcC]).2 =
      [11, 13] ∧
    Run.statusLines [Run.svcA, Run.svcB, Run.svcC] [11, 13] (fun _ => true) =
      [Run.MainEv.statusLine "A" true, Run.MainEv.statusLine "B" true,
       Run.MainEv.statusLine "C" false] := by
  refine ⟨by decide, by decide, by decide⟩

/-- C8 (confirmed): when all three pre-flight collaborators succeed, the
run reaches the status report (no abort): every descriptor in the
registry is attempted, and a descriptor whose launch returns None gets a
failure log while the loop continues to the next descriptor. When any
pre-flight collaborator fails, the run aborts with exit code 1 before
any service launch (no launch event occurs). -/
theorem C8_failure_policy (pf : String → Bool) (launchO : Run.Service → Option Nat)
    (waitO : Run.Service → Bool) (alive : Nat → Bool) :
    ((pf "install_python_dependencies" && pf "build_frontend" && pf "setup_database") = true →
      (Run.mainTrace pf launchO waitO alive).2 = none ∧
      ∀ s ∈ Run.services,
        Run.MainEv.launch s.name ∈ (Run.mainTrace pf launchO waitO alive).1 ∧
        (launchO s = none →
          Run.MainEv.launchFailedLog s.name ∈ (Run.mainTrace pf launchO waitO alive).1)) ∧
    ((pf "install_python_dependencies" && pf "build_frontend" && pf "setup_database") = false →
      (Run.mainTrace pf launchO waitO alive).2 = some 1 ∧
      (Run.mainTrace pf launchO waitO alive).1.filter Run.isLaunchEv = []) := by
  by_cases h1 : pf "install_python_dependencies"
  · by_cases h2 : pf "build_frontend"
    · by_cases h3 : pf "setup_database"
      · refine ⟨fun _ => ⟨by simp [Run.mainTrace, Run.afterReap, h1, h2, h3], ?_⟩,
          fun hf => by simp [h1, h2, h3] at hf⟩
        intro s hs
        obtain ⟨m1, m2⟩ := Run.launchEvents_mem launchO waitO Run.services s hs
        constructor
        · simp [Run.mainTrace, Run.afterReap, h1, h2, h3, List.mem_append, m1]
        · intro hn
          simp [Run.mainTrace, Run.afterReap, h1, h2, h3, List.mem_append, m2 hn]
      · refine ⟨fun ht => by simp [h3] at ht, fun _ => ?_⟩
        constructor
        · simp [Run.mainTrace, Run.afterReap, h1, h2, h3]
        · simp [Run.mainTrace, Run.afterReap, h1, h2, h3, List.filter_append,
            Run.preflightPorts, Run.isLaunchEv]
    · refine ⟨fun ht => by simp [h2] at ht, fun _ => ?_⟩
      constructor
      · simp [Run.mainTrace, Run.afterReap, h1, h2]
      · simp [Run.mainTrace, Run.afterReap, h1, h2, List.filter_append,
          Run.preflightPorts, Run.isLaunchEv]
  · refine ⟨fun ht => by simp [h1] at ht, fun _ => ?_⟩
    constructor
    · simp [Run.mainTrace, Run.afterReap, h1]
    · simp [Run.mainTrace, Run.afterReap, h1, List.filter_append,
        Run.preflightPorts, Run.isLaunchEv]

/-- C8 witness: with all pre-flight steps succeeding and
forex_data_service's launch failing, the run does not abort and the
failure is logged; with a failing pre-flight step, the run aborts with
exit code 1. -/
theorem C8_failure_policy_witness :
    (Run.mainTrace (fun _ => true)
      (fun s => if s.name = "forex_data_service" then none else some 7)
      (fun _ => true) (fun _ => true)).2 = none ∧
    Run.MainEv.launchFailedLog "forex_data_service" ∈
      (Run.mainTrace (fun _ => true)
        (fun s => if s.name = "forex_data_service" then none else some 7)
        (fun _ => true) (fun _ => true)).1 ∧
    (Run.mainTrace (fun _ => false) (fun _ => some 7)
      (fun _ => true) (fun _ => true)).2 = some 1 := by
  have ha := (C8_failure_policy (fun _ => true)
    (fun s => if s.name = "forex_data_service" then none else some 7)
    (fun _ => true) (fun _ => true)).1 rfl
  have hb := (C8_failure_policy (fun _ => false) (fun _ => some 7)
    (fun _ => true) (fun _ => true)).2 rfl
  refine ⟨ha.1, ?_, hb.1⟩
  exact (ha.2 ⟨"forex_data_service", "python3 forex_data_service/server.py", ".", 5010⟩
    (by decide)).2 rfl
